import Mathlib

/-!
Verification development for the AzureAgentandChatSetup repository.

The repository wires three backend tool functions (quote-id generation,
lead persistence, email notification) into hosted conversational agents,
plus two interactive conversation drivers, an agent-setup script that
declares the backend API to the runtime via an OpenAPI document, a
vector-store upload helper, and a cost-accounting utility.

This file shallowly embeds the Python sources:
  * HTTP interaction is modelled by an explicit outcome type
    (`Except PyErr HttpResponse`): the call either raises (timeout,
    connection failure) or yields a response with a status code and a body.
  * Python exceptions are modelled with `Except PyErr`; a function that
    lets an exception escape would produce `Except.error`, so totality of
    the error handlers is a theorem, not an assumption.
  * JSON bodies are modelled as either unparseable or a string-valued
    object (the code only ever reads string fields via `.get`).
  * Money amounts in the cost calculator are modelled exactly over `ℚ`,
    with Python 3 `round` (round half to even) made explicit.
  * The lead-intake tool-dispatch policy lives in natural-language agent
    instructions executed by the hosted runtime, not in executable Python;
    it is modelled from the spec's state machine and marked as such.
-/

/-- The set of Python exceptions the embedded code can observe.
`timeout` is `requests.exceptions.Timeout`, `httpError` is the
`requests.exceptions.HTTPError` raised by `raise_for_status`,
`connectionError` covers the other `requests.exceptions.RequestException`s
raised by `requests.post` itself, `jsonDecodeError` is the
`requests.exceptions.JSONDecodeError` raised by `Response.json`, and
`other` covers any further `Exception`. -/
inductive PyErr where
  | timeout (msg : String)
  | httpError (msg : String)
  | connectionError (msg : String)
  | jsonDecodeError (msg : String)
  | other (msg : String)
  deriving DecidableEq, Repr

/-- Python `str(e)` on an exception. -/
def PyErr.msg : PyErr → String
  | .timeout m => m
  | .httpError m => m
  | .connectionError m => m
  | .jsonDecodeError m => m
  | .other m => m

/-- Whether the exception is an instance of
`requests.exceptions.Timeout`. -/
def PyErr.isTimeout : PyErr → Bool
  | .timeout _ => true
  | _ => false

/-- Whether the exception is an instance of
`requests.exceptions.RequestException` (`Timeout`, `HTTPError`,
connection errors and `requests.exceptions.JSONDecodeError` all are). -/
def PyErr.isRequestException : PyErr → Bool
  | .timeout _ => true
  | .httpError _ => true
  | .connectionError _ => true
  | .jsonDecodeError _ => true
  | .other _ => false

/-- A response body: either text that fails JSON parsing, or a JSON object
whose fields are strings (the code only reads string fields). -/
inductive Body where
  | malformed (raw : String)
  | jsonObj (fields : List (String × String))
  deriving DecidableEq, Repr

/-- An HTTP response as the embedded code observes it. -/
structure HttpResponse where
  status : Nat
  body : Body
  deriving DecidableEq, Repr

/-- Outcome of one `requests.post` call: the call itself may raise
(timeout, connection error) or deliver a response. -/
abbrev PostOutcome := Except PyErr HttpResponse

/-- Model of `Response.raise_for_status`: raises `HTTPError` exactly for
4xx/5xx status codes. -/
def raise_for_status (r : HttpResponse) : Except PyErr Unit :=
  if 400 ≤ r.status then
    .error (.httpError ("HTTP error for status " ++ toString r.status))
  else
    .ok ()

/-- Model of `Response.json()`: raises a JSON decode error on an
unparseable body, otherwise yields the parsed object. -/
def respJson (r : HttpResponse) : Except PyErr (List (String × String)) :=
  match r.body with
  | .malformed _ => .error (.jsonDecodeError "Expecting value")
  | .jsonObj fields => .ok fields

/-- Python `dict.get(key, default)` on a string-valued JSON object. -/
def dictGet (fields : List (String × String)) (key dflt : String) : String :=
  match fields.lookup key with
  | some v => v
  | none => dflt

/-- The `try` block of `generate_quote_id` (src/lead_processing.py lines
28 to 33): POST, `raise_for_status`, parse JSON, then
`result.get("quote_id", "")`. -/
def generate_quote_id_try (post : PostOutcome) : Except PyErr String := do
  let response ← post
  let _ ← raise_for_status response
  let result ← respJson response
  return dictGet result "quote_id" ""

/-- Function `generate_quote_id` (src/lead_processing.py lines 18 to 35):
the `except Exception` handler turns every exception into an
`"Error: ..."` string. The outer `Except` records whether an exception
escapes the function. -/
def generate_quote_id (post : PostOutcome) : Except PyErr String :=
  match generate_quote_id_try post with
  | .ok s => .ok s
  | .error e => .ok ("Error: Could not generate quote ID. " ++ e.msg)

/-- The `try` block of `send_email_notification` (src/lead_processing.py
lines 51 to 63). -/
def send_email_notification_try (post : PostOutcome) : Except PyErr String := do
  let response ← post
  let _ ← raise_for_status response
  let result ← respJson response
  return dictGet result "message" "Success: Email notification sent."

/-- Function `send_email_notification` (src/lead_processing.py lines 39
to 67): the `except Exception` handler converts every exception into an
apology string naming the recipient. -/
def send_email_notification (to_email : String) (post : PostOutcome) :
    Except PyErr String :=
  match send_email_notification_try post with
  | .ok s => .ok s
  | .error _ =>
      .ok ("An error occurred while sending the email to " ++ to_email ++
        ". Please try again later.")

/-- The `try` block of `update_cosmos_db` (src/lead_processing.py lines
78 to 100). -/
def update_cosmos_db_try (post : PostOutcome) : Except PyErr String := do
  let response ← post
  let _ ← raise_for_status response
  let response_data ← respJson response
  return dictGet response_data "message"
    "Success: Lead information has been saved to the database."

/-- Function `update_cosmos_db` (src/lead_processing.py lines 69 to 112):
three handlers in order, `except Timeout`, `except RequestException`,
`except Exception`, each returning a message naming the lead. -/
def update_cosmos_db (full_name : String) (post : PostOutcome) :
    Except PyErr String :=
  match update_cosmos_db_try post with
  | .ok s => .ok s
  | .error e =>
      if e.isTimeout then
        .ok ("The request timed out while saving lead information for " ++
          full_name ++ ". Please try again later.")
      else if e.isRequestException then
        .ok ("An error occurred while saving the lead information for " ++
          full_name ++ ". Please try again later.")
      else
        .ok ("An unexpected error occurred while saving the lead information for " ++
          full_name ++ ". Please try again later.")

/-- A string carrying the failure marker of `generate_quote_id`: it starts
with the literal prefix `"Error: "`. -/
def errorPrefixed (s : String) : Prop := ∃ rest, s = "Error: " ++ rest

/-- An HTTP request as built by the tool functions: a method and a
fully formed URL. -/
structure HttpRequest where
  method : String
  url : String
  deriving DecidableEq, Repr

/-- The request built by `generate_quote_id` (src/lead_processing.py
lines 29 to 30): `requests.post` on the base URL joined with
`/generate-quote-id?code=` and the authorization code. -/
def generate_quote_id_request (base code : String) : HttpRequest :=
  { method := "POST"
    url := base ++ "/generate-quote-id?code=" ++ code }

/-- One operation of the OpenAPI document, keeping the parts the claims
mention: HTTP method, path, operation id, query parameters with their
required flags, and the 200-response JSON properties with their types. -/
structure OpenApiOperation where
  method : String
  path : String
  operationId : String
  queryParams : List (String × Bool)
  responseProps : List (String × String)
  deriving DecidableEq, Repr

/-- The quote-id operation declared to the agent runtime in
`openapi_spec` (src/agent_lead_processing_setup.py lines 33 to 68):
path `/api/generate-quote-id`, method key `get`, required `code` query
parameter, and a 200 response with a string `quote_id` property. -/
def openapi_generate_quote_id_op : OpenApiOperation :=
  { method := "get"
    path := "/api/generate-quote-id"
    operationId := "generate_quote_id"
    queryParams := [("code", true)]
    responseProps := [("quote_id", "string")] }

/-- Python `str.lower()`, character by character (the drivers only use it
to compare against the ASCII word `"quit"`). -/
def pyLower (s : String) : String := String.mk (s.data.map Char.toLower)

/-- Python `str.strip()`: drop whitespace from both ends. -/
def pyStrip (s : String) : String :=
  String.mk
    (((s.data.dropWhile Char.isWhitespace).reverse.dropWhile
      Char.isWhitespace).reverse)

/-- What one iteration of a conversation-driver input loop does with the
line it read: leave the loop, print a retry prompt and continue without
any thread or run activity, or process the line as a user message. -/
inductive LoopAction where
  | exitLoop
  | retry (prompt : String)
  | processMsg (content : String)
  deriving DecidableEq, Repr

/-- Classification of one input line by the loop in `main` of
src/lead_processing.py (lines 193 to 199): `break` when the lowercased
line is `"quit"`, a retry print and `continue` when the line has length
zero, otherwise the line is appended and a run is triggered. -/
def lead_loop_step (user_prompt : String) : LoopAction :=
  if pyLower user_prompt = "quit" then .exitLoop
  else if user_prompt.length = 0 then .retry "Please enter a prompt."
  else .processMsg user_prompt

/-- Classification of one input line by the loop in `run_chat_interface`
of src/chat_with_lead_processing_agent.py (lines 34 to 43): `break` when
the lowercased line is `"quit"`, a retry print and `continue` when the
stripped line has length zero, otherwise the line is processed. -/
def chat_loop_step (user_prompt : String) : LoopAction :=
  if pyLower user_prompt = "quit" then .exitLoop
  else if (pyStrip user_prompt).length = 0 then .retry "Please enter a message."
  else .processMsg user_prompt

/-- The module-level constant agent id of
src/chat_with_lead_processing_agent.py line 12. -/
def AGENT_ID : String := "asst_xS4WzzjvAasllgAnOYPiWFe2"

/-- The `__main__` block of src/chat_with_lead_processing_agent.py lines
69 to 76: it reads the `AGENT_ID` environment variable into `agent_id`,
then unconditionally reassigns `agent_id = AGENT_ID` before calling
`run_chat_interface(agent_id)`. The result is the agent id actually
passed to `run_chat_interface`. -/
def main_agent_id (env_agent_id : Option String) : String :=
  let _agent_id := env_agent_id
  AGENT_ID

/-- The fields of a finished run that the drivers inspect: its terminal
status string and the stored error detail (`run.last_error`). -/
structure RunInfo where
  status : String
  last_error : String
  deriving DecidableEq, Repr

/-- The lines printed after one run by `run_chat_interface`
(src/chat_with_lead_processing_agent.py lines 50 to 62): the latest
agent message or a no-response note, then, when the run status is
`"failed"`, a failure line carrying `run.last_error`. -/
def chat_run_output (run : RunInfo) (last_msg : Option String) : List String :=
  (match last_msg with
   | some m => [m]
   | none => ["No response from agent."]) ++
  (if run.status = "failed" then ["⚠ Run failed: " ++ run.last_error] else [])

/-- The lines printed after one run by the loop in `main` of
src/lead_processing.py (lines 206 to 212): only the latest agent message
when one exists; the run status is never inspected. -/
def lead_run_output (_run : RunInfo) (last_msg : Option String) : List String :=
  match last_msg with
  | some m => ["Last Message: " ++ m]
  | none => []

/-- A vector store status as polled by `upload_faq_to_vector_store`. -/
inductive VSStatus where
  | completed
  | failed
  | inProgress
  deriving DecidableEq, Repr

/-- The polling loop of `upload_faq_to_vector_store`
(src/agent_insurance_customer_support.py lines 44 to 57):
`while elapsed < max_wait` with `max_wait = 60` and `elapsed += 2` per
iteration, so at most 30 polls; `poll i` is the status the i-th
`vector_stores.get` returns. `completed` breaks, `failed` raises, and
exhausting the fuel falls through like a break. -/
def vs_wait_loop (poll : Nat → VSStatus) (i fuel : Nat) : Except String Unit :=
  match fuel with
  | 0 => .ok ()
  | Nat.succ fuel' =>
      match poll i with
      | .completed => .ok ()
      | .failed => .error "Vector store processing failed"
      | .inProgress => vs_wait_loop poll (i + 1) fuel'

/-- The wait-and-return tail of `upload_faq_to_vector_store`
(src/agent_insurance_customer_support.py lines 41 to 59): run the polling
loop, then `return vector_store.id`; the `failed` branch raises, and the
`except` handler re-raises, so the exception propagates. -/
def upload_faq_wait (poll : Nat → VSStatus) (vector_store_id : String) :
    Except String String :=
  match vs_wait_loop poll 0 30 with
  | .ok () => .ok vector_store_id
  | .error e => .error e

/-- One entry of the `OPENAI_PRICING` table
(src/openAI_cost_calculator.py lines 6 to 12): dollar prices per million
tokens, represented exactly as rationals. -/
structure Pricing where
  input_price_per_1m : ℚ
  output_price_per_1m : ℚ
  deriving DecidableEq, Repr

/-- The `OPENAI_PRICING` dictionary of src/openAI_cost_calculator.py. -/
def OPENAI_PRICING : List (String × Pricing) :=
  [("gpt-4o", ⟨5 / 2, 10⟩),
   ("gpt-4o-mini", ⟨3 / 20, 3 / 5⟩),
   ("gpt-4-turbo", ⟨10, 30⟩),
   ("gpt-4", ⟨30, 60⟩),
   ("gpt-3.5-turbo", ⟨1 / 2, 3 / 2⟩)]

/-- Round to the nearest integer, ties to even — the rounding Python 3
`round` applies. -/
def roundHalfEven (q : ℚ) : ℤ :=
  if Int.fract q < 1 / 2 then ⌊q⌋
  else if 1 / 2 < Int.fract q then ⌊q⌋ + 1
  else if ⌊q⌋ % 2 = 0 then ⌊q⌋ else ⌊q⌋ + 1

/-- Python 3 `round(x, 6)` on an exact value: round half to even at the
sixth decimal place. -/
def round6 (q : ℚ) : ℚ := (roundHalfEven (q * 1000000) : ℚ) / 1000000

/-- A `CostRecord` (src/openAI_cost_calculator.py lines 14 to 21), with
the dollar amounts as exact rationals. -/
structure CostRecord where
  model : String
  input_tokens : Nat
  output_tokens : Nat
  input_cost : ℚ
  output_cost : ℚ
  total_cost : ℚ
  timestamp : String
  deriving DecidableEq, Repr

/-- The record `calculate_cost` builds for a priced model
(src/openAI_cost_calculator.py lines 36 to 44): `input_cost` and
`output_cost` are stored rounded to 6 decimals, and `total_cost` is the
unrounded sum rounded to 6 decimals. -/
def mkCostRecord (model : String) (input_tokens output_tokens : Nat)
    (p : Pricing) (timestamp : String) : CostRecord :=
  { model := model
    input_tokens := input_tokens
    output_tokens := output_tokens
    input_cost := round6 ((input_tokens : ℚ) / 1000000 * p.input_price_per_1m)
    output_cost := round6 ((output_tokens : ℚ) / 1000000 * p.output_price_per_1m)
    total_cost := round6 ((input_tokens : ℚ) / 1000000 * p.input_price_per_1m +
      (output_tokens : ℚ) / 1000000 * p.output_price_per_1m)
    timestamp := timestamp }

/-- Method `OpenAICostCalculator.calculate_cost`
(src/openAI_cost_calculator.py lines 27 to 51): raises `ValueError` when
the model is not a pricing key; otherwise computes the costs, builds the
record and appends it to `session_costs`. The state is passed
explicitly; `timestamp` stands for `datetime.now().isoformat()`. -/
def calculate_cost (session_costs : List CostRecord) (model : String)
    (input_tokens output_tokens : Nat) (timestamp : String) :
    Except String (List CostRecord × CostRecord) :=
  match OPENAI_PRICING.lookup model with
  | none => .error ("Model '" ++ model ++ "' not found in pricing table")
  | some pricing =>
      let cost_record := mkCostRecord model input_tokens output_tokens
        pricing timestamp
      .ok (session_costs ++ [cost_record], cost_record)

/-- The `session_costs` list after a `calculate_cost` call: when the call
raises, the append is never reached and the list is unchanged. -/
def calculate_cost_state (session_costs : List CostRecord) (model : String)
    (input_tokens output_tokens : Nat) (timestamp : String) : List CostRecord :=
  match calculate_cost session_costs model input_tokens output_tokens timestamp with
  | .error _ => session_costs
  | .ok (st, _) => st

/-- One of the three backend tools the lead-intake agent may invoke. -/
inductive ToolCall where
  | genQuoteId
  | persistLead
  | sendConfirmationEmail
  deriving DecidableEq, Repr

/-- The five collected attributes of a Lead Record (its sixth field, the
quote id, is produced by the first tool call). -/
structure LeadFields where
  full_name : String
  email : String
  phone_number : String
  age : Nat
  location : String
  deriving DecidableEq, Repr

/-- Modelled from the spec: field validity for leaving the `COLLECTING`
state (spec section 4.2) — all fields non-empty and syntactically
plausible: the email contains `@` and the age is a positive integer. -/
def validFields (f : LeadFields) : Bool :=
  f.full_name.length != 0 && f.email.data.contains '@' &&
  f.phone_number.length != 0 && decide (0 < f.age) &&
  f.location.length != 0

/-- The results the three backend tools return to the intake agent:
the string from `GenerateQuoteID` and the success of the two later
calls. -/
structure ToolOutcomes where
  quote_result : String
  persist_ok : Bool
  deriving DecidableEq, Repr

/-- Whether a tool result is an error-shaped string, the failure signal
of the `"Error: ..."` convention. -/
def isErrorShaped (s : String) : Bool := "Error: ".data.isPrefixOf s.data

/-- Modelled from the spec: the lead-intake tool-dispatch state machine of
spec section 4.2. The policy itself is natural-language agent
instructions (src/lead_processing.py lines 156 to 184 and
src/agent_lead_processing_setup.py lines 254 to 281) interpreted by the
hosted agent runtime, so no executable dispatch loop exists under src/.
Following the spec's words: with valid fields, invoke `GenerateQuoteID`;
stop without advancing when its result is error-shaped; otherwise invoke
`PersistLead`; on persistence failure report without notifying;
otherwise invoke `SendConfirmationEmail`. The result is the
tool-invocation trace in order. -/
def run_lead_intake (f : LeadFields) (o : ToolOutcomes) : List ToolCall :=
  if validFields f then
    if isErrorShaped o.quote_result then [.genQuoteId]
    else if o.persist_ok then
      [.genQuoteId, .persistLead, .sendConfirmationEmail]
    else [.genQuoteId, .persistLead]
  else []

/-- C2: for every input and every outcome of the external HTTP call
(timeout, network error, non-2xx status, malformed response body, or any
other exception), each of `generate_quote_id`, `update_cosmos_db` and
`send_email_notification` returns a string and never lets an exception
escape its boundary: the embedded functions are `Except.ok` on every
`PostOutcome`. -/
theorem tools_never_raise (post : PostOutcome) (to_email full_name : String) :
    (generate_quote_id post).isOk = true ∧
    (send_email_notification to_email post).isOk = true ∧
    (update_cosmos_db full_name post).isOk = true := by
  refine ⟨?_, ?_, ?_⟩
  · unfold generate_quote_id
    cases generate_quote_id_try post with
    | ok s => rfl
    | error e => rfl
  · unfold send_email_notification
    cases send_email_notification_try post with
    | ok s => rfl
    | error e => rfl
  · unfold update_cosmos_db
    cases update_cosmos_db_try post with
    | ok s => rfl
    | error e =>
        by_cases ht : e.isTimeout
        · simp [ht, Except.isOk, Except.toBool]
        · by_cases hr : e.isRequestException
          · simp [ht, hr, Except.isOk, Except.toBool]
          · simp [ht, hr, Except.isOk, Except.toBool]

/-- C3 counterexample: a 2xx response whose JSON object parses but lacks
the `quote_id` field is a failing execution of `generate_quote_id`
(no identifier was obtained), yet the function returns the empty string
from `result.get("quote_id", "")` — not an `"Error: "`-prefixed string. -/
theorem generate_quote_id_missing_field_not_error :
    generate_quote_id (.ok ⟨200, .jsonObj [("status", "ok")]⟩) = .ok "" ∧
    ¬ errorPrefixed "" := by
  constructor
  · rfl
  · rintro ⟨rest, h⟩
    have hlen : ("" : String).length = ("Error: " ++ rest).length := by rw [h]
    rw [String.length_append] at hlen
    have h7 : ("Error: " : String).length = 7 := rfl
    have h0 : ("" : String).length = 0 := rfl
    omega

/-- C3 amended: on the exception-mediated failures of `generate_quote_id`
— timeout, connection error, HTTP status at least 400, and a response
body that fails JSON parsing — the returned string is prefixed with
`"Error: "`; only the parsed-but-missing-`quote_id` case degrades to the
empty string instead. -/
theorem generate_quote_id_error_marked :
    (∀ m, ∃ s, generate_quote_id (.error (.timeout m)) = .ok s ∧ errorPrefixed s) ∧
    (∀ m, ∃ s, generate_quote_id (.error (.connectionError m)) = .ok s ∧ errorPrefixed s) ∧
    (∀ r : HttpResponse, 400 ≤ r.status →
      ∃ s, generate_quote_id (.ok r) = .ok s ∧ errorPrefixed s) ∧
    (∀ st raw, st < 400 →
      ∃ s, generate_quote_id (.ok ⟨st, .malformed raw⟩) = .ok s ∧ errorPrefixed s) := by
  have hsplit : ∀ m : String, "Error: Could not generate quote ID. " ++ m =
      "Error: " ++ ("Could not generate quote ID. " ++ m) := by
    intro m
    have hlit : ("Error: " : String) ++ "Could not generate quote ID. " =
        "Error: Could not generate quote ID. " := rfl
    rw [← String.append_assoc, hlit]
  refine ⟨?_, ?_, ?_, ?_⟩
  · intro m
    exact ⟨_, rfl, ⟨_, hsplit m⟩⟩
  · intro m
    exact ⟨_, rfl, ⟨_, hsplit m⟩⟩
  · intro r hr
    refine ⟨"Error: Could not generate quote ID. " ++
      ("HTTP error for status " ++ toString r.status), ?_, ⟨_, hsplit _⟩⟩
    simp [generate_quote_id, generate_quote_id_try, raise_for_status, hr, PyErr.msg,
      Bind.bind, Except.bind]
  · intro st raw hst
    refine ⟨"Error: Could not generate quote ID. " ++ "Expecting value", ?_,
      ⟨_, hsplit _⟩⟩
    simp [generate_quote_id, generate_quote_id_try, raise_for_status,
      Nat.not_le_of_lt hst, respJson, PyErr.msg, Bind.bind, Except.bind]

/-- C3 amended witness: instantiates each hypothesis-bearing conjunct of
the amended theorem at a concrete failing call. -/
theorem generate_quote_id_error_marked_witness :
    (∃ s, generate_quote_id (.ok ⟨500, Body.jsonObj []⟩) = .ok s ∧ errorPrefixed s) ∧
    (∃ s, generate_quote_id (.ok ⟨200, .malformed "<html>"⟩) = .ok s ∧ errorPrefixed s) :=
  ⟨generate_quote_id_error_marked.2.2.1 ⟨500, Body.jsonObj []⟩ (by decide),
   generate_quote_id_error_marked.2.2.2 200 "<html>" (by decide)⟩

/-- C5 counterexample: the declaration of the quote-id endpoint given to
the agent runtime is a GET on `/api/generate-quote-id`, not a POST on
`/generate-quote-id` as the claim states. -/
theorem openapi_quote_decl_not_post :
    openapi_generate_quote_id_op.method = "get" ∧
    openapi_generate_quote_id_op.path = "/api/generate-quote-id" ∧
    openapi_generate_quote_id_op.method ≠ "post" ∧
    openapi_generate_quote_id_op.method ≠ "POST" ∧
    openapi_generate_quote_id_op.path ≠ "/generate-quote-id" := by
  refine ⟨rfl, rfl, by decide, by decide, by decide⟩

/-- C5 amended: the function tool invokes the endpoint as an HTTP POST to
`/generate-quote-id` with the token in the `code` query parameter and
parses the JSON body's `quote_id` field, while the OpenAPI document
declares it to the agent runtime as a GET on `/api/generate-quote-id`
with a required `code` query parameter and a string `quote_id` response
property. -/
theorem quote_endpoint_contract (base code : String) (st : Nat)
    (fields : List (String × String)) (hst : st < 400) :
    (generate_quote_id_request base code).method = "POST" ∧
    (generate_quote_id_request base code).url =
      base ++ "/generate-quote-id?code=" ++ code ∧
    generate_quote_id (.ok ⟨st, .jsonObj fields⟩) =
      .ok (dictGet fields "quote_id" "") ∧
    openapi_generate_quote_id_op.method = "get" ∧
    openapi_generate_quote_id_op.path = "/api/generate-quote-id" ∧
    ("code", true) ∈ openapi_generate_quote_id_op.queryParams ∧
    ("quote_id", "string") ∈ openapi_generate_quote_id_op.responseProps := by
  refine ⟨rfl, rfl, ?_, rfl, rfl, by decide, by decide⟩
  simp [generate_quote_id, generate_quote_id_try, raise_for_status,
    Nat.not_le_of_lt hst, respJson, Bind.bind, Except.bind,
    Functor.map, Except.map, Pure.pure, Except.pure]

/-- C5 amended witness: the contract theorem applied at a concrete base
URL, code, status and body. -/
theorem quote_endpoint_contract_witness :
    (generate_quote_id_request "https://fn.example.net" "k1").method = "POST" ∧
    (generate_quote_id_request "https://fn.example.net" "k1").url =
      "https://fn.example.net" ++ "/generate-quote-id?code=" ++ "k1" ∧
    generate_quote_id (.ok ⟨200, .jsonObj [("quote_id", "q-42")]⟩) =
      .ok (dictGet [("quote_id", "q-42")] "quote_id" "") ∧
    openapi_generate_quote_id_op.method = "get" ∧
    openapi_generate_quote_id_op.path = "/api/generate-quote-id" ∧
    ("code", true) ∈ openapi_generate_quote_id_op.queryParams ∧
    ("quote_id", "string") ∈ openapi_generate_quote_id_op.responseProps :=
  quote_endpoint_contract "https://fn.example.net" "k1" 200
    [("quote_id", "q-42")] (by decide)

/-- C6: in both drivers the loop exits exactly when the line, lowercased,
equals `"quit"`, and an empty line yields a retry prompt and continues
without appending a message or triggering a run. -/
theorem loop_exit_iff_quit (line : String) :
    (lead_loop_step line = .exitLoop ↔ pyLower line = "quit") ∧
    (chat_loop_step line = .exitLoop ↔ pyLower line = "quit") ∧
    lead_loop_step "" = .retry "Please enter a prompt." ∧
    chat_loop_step "" = .retry "Please enter a message." := by
  refine ⟨?_, ?_, by decide, by decide⟩
  · unfold lead_loop_step
    by_cases h : pyLower line = "quit"
    · simp [h]
    · by_cases h0 : line.length = 0 <;> simp [h, h0]
  · unfold chat_loop_step
    by_cases h : pyLower line = "quit"
    · simp [h]
    · by_cases h0 : (pyStrip line).length = 0 <;> simp [h, h0]

/-- C7: whatever the `AGENT_ID` environment variable holds (set or not),
the agent id passed to the chat interface is the hardcoded module
constant; the environment value is always overwritten. -/
theorem chat_agent_id_hardcoded (env_agent_id : Option String) :
    main_agent_id env_agent_id = AGENT_ID ∧
    main_agent_id env_agent_id = "asst_xS4WzzjvAasllgAnOYPiWFe2" ∧
    ∀ other_env : Option String,
      main_agent_id env_agent_id = main_agent_id other_env := by
  exact ⟨rfl, rfl, fun _ => rfl⟩

/-- C8: on a 2xx response whose parsed JSON object has no `"message"`
key, `update_cosmos_db` and `send_email_notification` return locally
fabricated success strings that did not originate from the backend. -/
theorem missing_message_key_fabricated_success (st : Nat)
    (fields : List (String × String)) (full_name to_email : String)
    (h2xx : 200 ≤ st ∧ st < 300) (hmsg : fields.lookup "message" = none) :
    update_cosmos_db full_name (.ok ⟨st, .jsonObj fields⟩) =
      .ok "Success: Lead information has been saved to the database." ∧
    send_email_notification to_email (.ok ⟨st, .jsonObj fields⟩) =
      .ok "Success: Email notification sent." := by
  have hlt : ¬ 400 ≤ st := by omega
  constructor
  · simp [update_cosmos_db, update_cosmos_db_try, raise_for_status, hlt,
      respJson, dictGet, hmsg, Bind.bind, Except.bind, Pure.pure, Except.pure]
  · simp [send_email_notification, send_email_notification_try,
      raise_for_status, hlt, respJson, dictGet, hmsg, Bind.bind, Except.bind,
      Pure.pure, Except.pure]

/-- C8 witness: the fabricated-success theorem applied at status 200 and
a body whose object holds only a `"status"` field. -/
theorem missing_message_key_fabricated_success_witness :
    update_cosmos_db "Ada Lovelace" (.ok ⟨200, .jsonObj [("status", "ok")]⟩) =
      .ok "Success: Lead information has been saved to the database." ∧
    send_email_notification "ada@example.com"
        (.ok ⟨200, .jsonObj [("status", "ok")]⟩) =
      .ok "Success: Email notification sent." :=
  missing_message_key_fabricated_success 200 [("status", "ok")]
    "Ada Lovelace" "ada@example.com" (by decide) (by decide)

/-- C4 counterexample: in the lead-processing driver a run that
terminates with status `"failed"` and no agent message produces no
output at all — the stored error detail is silently dropped, so the
claim does not hold for both conversation drivers. -/
theorem lead_driver_silent_on_failed_run :
    lead_run_output { status := "failed", last_error := "rate limited" } none
      = [] ∧
    "⚠ Run failed: rate limited" ∉
      lead_run_output { status := "failed", last_error := "rate limited" }
        (some "Working on it.") := by
  refine ⟨rfl, by decide⟩

/-- C4 amended: the chat driver (`run_chat_interface`) reports every
failed run with its stored error detail; the lead-processing driver
never inspects the run status and prints nothing beyond the optional
latest agent message. -/
theorem chat_driver_reports_failed_run (err : String) (last_msg : Option String) :
    ("⚠ Run failed: " ++ err) ∈
      chat_run_output { status := "failed", last_error := err } last_msg ∧
    ∀ run : RunInfo, ∀ m : Option String,
      lead_run_output run m =
        (match m with
         | some s => ["Last Message: " ++ s]
         | none => []) := by
  constructor
  · cases last_msg with
    | none => simp [chat_run_output]
    | some s => simp [chat_run_output]
  · intro run m
    rfl

theorem vs_wait_loop_ok (poll : Nat → VSStatus) :
    ∀ fuel i, (∀ k, k < fuel → poll (i + k) = .inProgress) →
      vs_wait_loop poll i fuel = .ok () := by
  intro fuel
  induction fuel with
  | zero => intro i _; rfl
  | succ n ih =>
      intro i h
      have h0 : poll i = .inProgress := by
        have := h 0 (Nat.succ_pos n)
        simpa using this
      simp only [vs_wait_loop, h0]
      refine ih (i + 1) (fun k hk => ?_)
      have heq : i + 1 + k = i + (k + 1) := by omega
      rw [heq]
      exact h (k + 1) (by omega)

theorem vs_wait_loop_failed (poll : Nat → VSStatus) :
    ∀ fuel i j, j < fuel → (∀ k, k < j → poll (i + k) = .inProgress) →
      poll (i + j) = .failed →
      vs_wait_loop poll i fuel = .error "Vector store processing failed" := by
  intro fuel
  induction fuel with
  | zero => intro i j hj _ _; omega
  | succ n ih =>
      intro i j hj hpre hfail
      cases j with
      | zero =>
          have h0 : poll i = .failed := by simpa using hfail
          simp only [vs_wait_loop, h0]
      | succ j' =>
          have h0 : poll i = .inProgress := by
            have := hpre 0 (Nat.succ_pos j')
            simpa using this
          simp only [vs_wait_loop, h0]
          refine ih (i + 1) j' (by omega) (fun k hk => ?_) ?_
          · have heq : i + 1 + k = i + (k + 1) := by omega
            rw [heq]
            exact hpre (k + 1) (by omega)
          · have heq : i + 1 + j' = i + (j' + 1) := by omega
            rw [heq]
            exact hfail

/-- C9: `upload_faq_to_vector_store` propagates an exception when a poll
observes status `failed`, but when every poll within the 60-second
window (30 polls, 2 seconds apart) still reports processing, it returns
the vector store id as a success, without raising and without signalling
that processing is incomplete. -/
theorem upload_faq_wait_spec (poll : Nat → VSStatus) (vector_store_id : String) :
    (∀ j, j < 30 → (∀ k, k < j → poll k = .inProgress) → poll j = .failed →
      upload_faq_wait poll vector_store_id =
        .error "Vector store processing failed") ∧
    ((∀ k, k < 30 → poll k = .inProgress) →
      upload_faq_wait poll vector_store_id = .ok vector_store_id) := by
  constructor
  · intro j hj hpre hfail
    have hloop := vs_wait_loop_failed poll 30 0 j hj
      (fun k hk => by simpa using hpre k hk) (by simpa using hfail)
    simp [upload_faq_wait, hloop]
  · intro hall
    have hloop := vs_wait_loop_ok poll 30 0
      (fun k hk => by simpa using hall k hk)
    simp [upload_faq_wait, hloop]

/-- C9 witness: the wait-loop theorem applied to a store that fails on
the first poll and to a store that never finishes processing. -/
theorem upload_faq_wait_spec_witness :
    upload_faq_wait (fun _ => VSStatus.failed) "vs_abc" =
      .error "Vector store processing failed" ∧
    upload_faq_wait (fun _ => VSStatus.inProgress) "vs_abc" = .ok "vs_abc" := by
  constructor
  · exact (upload_faq_wait_spec (fun _ => VSStatus.failed) "vs_abc").1 0
      (by decide) (fun k hk => absurd hk (Nat.not_lt_zero k)) rfl
  · exact (upload_faq_wait_spec (fun _ => VSStatus.inProgress) "vs_abc").2
      (fun k _ => rfl)

/-- C10 counterexample: for `"gpt-4o-mini"` with one input token the
computed input cost is 3/20000000 dollars, but the stored record's
`input_cost` is 0 — the code also rounds `input_cost` (and
`output_cost`) to 6 decimal places, so the stored field is not the raw
per-million product the claim describes. -/
theorem calculate_cost_rounds_input_cost :
    calculate_cost_state [] "gpt-4o-mini" 1 0 "t0" =
      [mkCostRecord "gpt-4o-mini" 1 0 ⟨3 / 20, 3 / 5⟩ "t0"] ∧
    (mkCostRecord "gpt-4o-mini" 1 0 ⟨3 / 20, 3 / 5⟩ "t0").input_cost = 0 ∧
    (1 : ℚ) / 1000000 * (3 / 20) ≠ 0 := by
  refine ⟨rfl, ?_, by norm_num⟩
  norm_num [mkCostRecord, round6, roundHalfEven, Int.fract]

/-- C10 amended: `calculate_cost` raises `ValueError` exactly when the
model is not a pricing key, leaving `session_costs` unchanged;
otherwise it appends exactly one record whose `input_cost` and
`output_cost` are the per-million products rounded to 6 decimal places
and whose `total_cost` is the unrounded sum rounded to 6 decimal
places. -/
theorem calculate_cost_spec (session_costs : List CostRecord) (model : String)
    (input_tokens output_tokens : Nat) (timestamp : String) :
    ((∃ e, calculate_cost session_costs model input_tokens output_tokens
        timestamp = .error e) ↔ OPENAI_PRICING.lookup model = none) ∧
    (OPENAI_PRICING.lookup model = none →
      calculate_cost_state session_costs model input_tokens output_tokens
        timestamp = session_costs) ∧
    (∀ p, OPENAI_PRICING.lookup model = some p →
      ∃ rec, calculate_cost session_costs model input_tokens output_tokens
          timestamp = .ok (session_costs ++ [rec], rec) ∧
        calculate_cost_state session_costs model input_tokens output_tokens
          timestamp = session_costs ++ [rec] ∧
        rec.model = model ∧
        rec.input_tokens = input_tokens ∧
        rec.output_tokens = output_tokens ∧
        rec.input_cost =
          round6 ((input_tokens : ℚ) / 1000000 * p.input_price_per_1m) ∧
        rec.output_cost =
          round6 ((output_tokens : ℚ) / 1000000 * p.output_price_per_1m) ∧
        rec.total_cost =
          round6 ((input_tokens : ℚ) / 1000000 * p.input_price_per_1m +
            (output_tokens : ℚ) / 1000000 * p.output_price_per_1m) ∧
        rec.timestamp = timestamp) := by
  cases h : OPENAI_PRICING.lookup model with
  | none =>
      refine ⟨⟨fun _ => rfl,
        fun _ => ⟨"Model '" ++ model ++ "' not found in pricing table", ?_⟩⟩,
        fun _ => ?_, fun p hp => by simp at hp⟩
      · simp [calculate_cost, h]
      · simp [calculate_cost_state, calculate_cost, h]
  | some p =>
      refine ⟨⟨?_, fun hn => by simp at hn⟩, fun hn => by simp at hn,
        fun q hq => ?_⟩
      · rintro ⟨e, he⟩
        simp [calculate_cost, h] at he
      · have hq' : p = q := by injection hq
        subst hq'
        refine ⟨mkCostRecord model input_tokens output_tokens p timestamp,
          ?_, ?_, rfl, rfl, rfl, rfl, rfl, rfl, rfl⟩
        · simp [calculate_cost, h]
        · simp [calculate_cost_state, calculate_cost, h]

/-- C10 amended witness: the specification applied to a model missing
from the pricing table and to `"gpt-4o"` (priced at 5/2 and 10 dollars
per million tokens) with concrete token counts. -/
theorem calculate_cost_spec_witness :
    (OPENAI_PRICING.lookup "gpt-5" = none ∧
      calculate_cost_state [] "gpt-5" 10 20 "t1" = []) ∧
    (OPENAI_PRICING.lookup "gpt-4o" = some ⟨5 / 2, 10⟩ ∧
      ∃ rec, calculate_cost [] "gpt-4o" 1000000 2000000 "t1" =
          .ok ([] ++ [rec], rec) ∧
        calculate_cost_state [] "gpt-4o" 1000000 2000000 "t1" = [] ++ [rec] ∧
        rec.model = "gpt-4o" ∧
        rec.input_tokens = 1000000 ∧
        rec.output_tokens = 2000000 ∧
        rec.input_cost =
          round6 ((1000000 : ℚ) / 1000000 * Pricing.input_price_per_1m ⟨5 / 2, 10⟩) ∧
        rec.output_cost =
          round6 ((2000000 : ℚ) / 1000000 * Pricing.output_price_per_1m ⟨5 / 2, 10⟩) ∧
        rec.total_cost =
          round6 ((1000000 : ℚ) / 1000000 * Pricing.input_price_per_1m ⟨5 / 2, 10⟩ +
            (2000000 : ℚ) / 1000000 * Pricing.output_price_per_1m ⟨5 / 2, 10⟩) ∧
        rec.timestamp = "t1") :=
  ⟨⟨rfl, (calculate_cost_spec [] "gpt-5" 10 20 "t1").2.1 rfl⟩,
   ⟨rfl, (calculate_cost_spec [] "gpt-4o" 1000000 2000000 "t1").2.2
     ⟨5 / 2, 10⟩ rfl⟩⟩

/-- C1: for a lead intake with valid fields whose quote-id call returns a
non-error identifier and whose persistence call succeeds, the intake
trace is exactly `GenerateQuoteID`, then `PersistLead`, then
`SendConfirmationEmail`, each invoked exactly once; and on every path,
success or failure, the trace is a prefix of that fixed sequential
order, so the tools are never reordered or repeated. -/
theorem lead_intake_tool_order (f : LeadFields) (o : ToolOutcomes)
    (hv : validFields f = true) (hq : isErrorShaped o.quote_result = false)
    (hp : o.persist_ok = true) :
    run_lead_intake f o =
      [.genQuoteId, .persistLead, .sendConfirmationEmail] ∧
    (run_lead_intake f o).count .genQuoteId = 1 ∧
    (run_lead_intake f o).count .persistLead = 1 ∧
    (run_lead_intake f o).count .sendConfirmationEmail = 1 ∧
    ∀ (f2 : LeadFields) (o2 : ToolOutcomes),
      List.IsPrefix (run_lead_intake f2 o2)
        [ToolCall.genQuoteId, ToolCall.persistLead,
         ToolCall.sendConfirmationEmail] := by
  have htrace : run_lead_intake f o =
      [.genQuoteId, .persistLead, .sendConfirmationEmail] := by
    simp [run_lead_intake, hv, hq, hp]
  refine ⟨htrace, ?_, ?_, ?_, ?_⟩
  · rw [htrace]; decide
  · rw [htrace]; decide
  · rw [htrace]; decide
  · intro f2 o2
    by_cases h1 : validFields f2 = true
    · by_cases h2 : isErrorShaped o2.quote_result = true
      · exact ⟨[ToolCall.persistLead, ToolCall.sendConfirmationEmail],
          by simp [run_lead_intake, h1, h2]⟩
      · by_cases h3 : o2.persist_ok = true
        · exact ⟨[], by simp [run_lead_intake, h1, h2, h3]⟩
        · exact ⟨[ToolCall.sendConfirmationEmail],
            by simp [run_lead_intake, h1, h2, h3]⟩
    · exact ⟨[ToolCall.genQuoteId, ToolCall.persistLead,
        ToolCall.sendConfirmationEmail], by simp [run_lead_intake, h1]⟩

/-- C1 witness: the intake-order theorem applied to a concrete valid
lead, a non-error quote id and a successful persistence call. -/
theorem lead_intake_tool_order_witness :
    validFields ⟨"Jane Roe", "jane@example.com", "555-0100", 34, "Austin, TX"⟩
      = true ∧
    isErrorShaped "0b2f0c1e-5a77-4d1a-9c43-1f2e3d4c5b6a" = false ∧
    run_lead_intake
        ⟨"Jane Roe", "jane@example.com", "555-0100", 34, "Austin, TX"⟩
        ⟨"0b2f0c1e-5a77-4d1a-9c43-1f2e3d4c5b6a", true⟩ =
      [.genQuoteId, .persistLead, .sendConfirmationEmail] :=
  ⟨by decide, by decide,
   (lead_intake_tool_order
     ⟨"Jane Roe", "jane@example.com", "555-0100", 34, "Austin, TX"⟩
     ⟨"0b2f0c1e-5a77-4d1a-9c43-1f2e3d4c5b6a", true⟩
     (by decide) (by decide) rfl).1⟩
